import Mathlib

/-!
Verification of the Parking_management system.

The repository ships the dashboard (src/frontend/src/App.js); the backend
it talks to (lifecycle engine, billing calculator, stats aggregator,
query/filter layer) is described by the specification but its code is not
in the repository.  Definitions embedding App.js are translated directly
from that file; definitions for the missing backend are modelled from the
specification and say so in their doc comments.

Conventions: money amounts are rationals (dollars), timestamps are
integers (seconds), statuses and spot types of backend records are closed
enumerations as the specification demands, while the UI-level code works
on raw strings exactly as App.js does.
-/

namespace Parking

/-- Lifecycle status of a parking spot: one of
`available | occupied | reserved | maintenance`. -/
inductive SpotStatus where
  | available
  | occupied
  | reserved
  | maintenance
  deriving DecidableEq, Repr

/-- Spot type: one of `regular | handicap | vip | electric`. -/
inductive SpotType where
  | regular
  | handicap
  | vip
  | electric
  deriving DecidableEq, Repr

/-- The string carried for each status in the JSON interface. -/
def SpotStatus.toString : SpotStatus → String
  | .available => "available"
  | .occupied => "occupied"
  | .reserved => "reserved"
  | .maintenance => "maintenance"

/-- The string carried for each spot type in the JSON interface. -/
def SpotType.toString : SpotType → String
  | .regular => "regular"
  | .handicap => "handicap"
  | .vip => "vip"
  | .electric => "electric"

/-- The ParkingSpot record (spec section 3): identity, mutable fields,
lifecycle state, the derived `is_occupied` boolean, occupancy fields and
the post-checkout audit fields. -/
structure ParkingSpot where
  id : Nat
  spot_number : String
  spot_type : SpotType
  hourly_rate : ℚ
  status : SpotStatus
  is_occupied : Bool
  vehicle_license : Option String
  driver_name : Option String
  driver_phone : Option String
  entry_time : Option ℤ
  exit_time : Option ℤ
  total_fee : Option ℚ
  deriving DecidableEq, Repr

/-- Error taxonomy of the API (spec section 7). -/
inductive ApiError where
  | validationError
  | invalidTransition
  | notFound
  | conflictError
  deriving DecidableEq, Repr

/-- Modelled from the spec: rounding a dollar amount up to the next cent,
`ceil_to_cent` of section 4.2 (the billing calculator is not in src/). -/
def ceil_to_cent (q : ℚ) : ℚ := ((Int.ceil (q * 100) : ℤ) : ℚ) / 100

/-- Modelled from the spec: elapsed seconds between entry and exit,
clamped to zero when `exit_time < entry_time` (spec section 4.2; the
billing calculator is not in src/). -/
def elapsed_seconds (entry_time exit_time : ℤ) : ℤ :=
  max (exit_time - entry_time) 0

/-- Modelled from the spec: the checkout fee
`ceil_to_cent(elapsed_hours * hourly_rate)` with
`elapsed_hours = elapsed_seconds / 3600.0` (spec section 4.2; the billing
calculator is not in src/). -/
def fee (entry_time exit_time : ℤ) (hourly_rate : ℚ) : ℚ :=
  ceil_to_cent (((elapsed_seconds entry_time exit_time : ℤ) : ℚ) / 3600 * hourly_rate)

/-- Modelled from the spec: creation of a spot from the POST payload
`(spot_number, spot_type, hourly_rate, status)` with a fresh id; no
occupancy fields, `is_occupied` derived from status (spec sections 3 and
4.5; the repository code is not in src/). -/
def createSpot (id : Nat) (num : String) (ty : SpotType) (rate : ℚ)
    (st : SpotStatus) : ParkingSpot :=
  { id := id
    spot_number := num
    spot_type := ty
    hourly_rate := rate
    status := st
    is_occupied := decide (st = .occupied)
    vehicle_license := none
    driver_name := none
    driver_phone := none
    entry_time := none
    exit_time := none
    total_fee := none }

/-- Modelled from the spec: check-in (spec section 4.1; the lifecycle
engine is not in src/).  Requires status exactly `available`
(`InvalidTransition` otherwise) and a non-empty `vehicle_license`
(`ValidationError` otherwise); sets `entry_time` to the current time and
populates the driver fields. -/
def checkin (s : ParkingSpot) (license : String) (dn dp : Option String)
    (now : ℤ) : Except ApiError ParkingSpot :=
  if s.status ≠ .available then .error .invalidTransition
  else if license = "" then .error .validationError
  else .ok { s with
    status := .occupied
    is_occupied := true
    vehicle_license := some license
    driver_name := dn
    driver_phone := dp
    entry_time := some now }

/-- Modelled from the spec: checkout (spec section 4.1; the lifecycle
engine is not in src/).  Requires status exactly `occupied`
(`InvalidTransition` otherwise); computes the fee from `entry_time` and
`hourly_rate`, clears the occupancy fields and records `exit_time` and
`total_fee`. -/
def checkout (s : ParkingSpot) (now : ℤ) : Except ApiError ParkingSpot :=
  if s.status ≠ .occupied then .error .invalidTransition
  else .ok { s with
    status := .available
    is_occupied := false
    vehicle_license := none
    driver_name := none
    driver_phone := none
    entry_time := none
    exit_time := some now
    total_fee := some (fee (s.entry_time.getD now) now s.hourly_rate) }

/-- Modelled from the spec: manual edit (spec section 4.1; the lifecycle
engine is not in src/).  Replaces `spot_number`, `spot_type`,
`hourly_rate` and `status` from the PUT payload; editing away from
`occupied` clears the occupancy fields, and `is_occupied` stays derived
from the new status. -/
def editSpot (s : ParkingSpot) (num : String) (ty : SpotType) (rate : ℚ)
    (st : SpotStatus) : ParkingSpot :=
  if st = .occupied then
    { s with
      spot_number := num
      spot_type := ty
      hourly_rate := rate
      status := st
      is_occupied := true }
  else
    { s with
      spot_number := num
      spot_type := ty
      hourly_rate := rate
      status := st
      is_occupied := false
      vehicle_license := none
      driver_name := none
      driver_phone := none
      entry_time := none }

/-- The repository: the list of live spot records, in creation order. -/
abbrev Repo := List ParkingSpot

/-- Modelled from the spec: check-in at the repository level; `NotFound`
for an unknown id, otherwise the per-record transition, written back only
on success (spec sections 4.1 and 4.5). -/
def repoCheckin (repo : Repo) (id : Nat) (license : String)
    (dn dp : Option String) (now : ℤ) : Except ApiError Repo :=
  match List.find? (fun s => s.id == id) repo with
  | none => .error .notFound
  | some s =>
    match checkin s license dn dp now with
    | .error e => .error e
    | .ok s2 => .ok (List.map (fun t => if t.id == id then s2 else t) repo)

/-- Modelled from the spec: checkout at the repository level; `NotFound`
for an unknown id, otherwise the per-record transition, written back only
on success (spec sections 4.1 and 4.5). -/
def repoCheckout (repo : Repo) (id : Nat) (now : ℤ) :
    Except ApiError Repo :=
  match List.find? (fun s => s.id == id) repo with
  | none => .error .notFound
  | some s =>
    match checkout s now with
    | .error e => .error e
    | .ok s2 => .ok (List.map (fun t => if t.id == id then s2 else t) repo)

/-- Modelled from the spec: the all-or-nothing observable outcome of a
check-in request — on failure the repository is exactly the one before
the call (spec section 7). -/
def runCheckin (repo : Repo) (id : Nat) (license : String)
    (dn dp : Option String) (now : ℤ) : Repo × Option ApiError :=
  match repoCheckin repo id license dn dp now with
  | .ok r => (r, none)
  | .error e => (repo, some e)

/-- Modelled from the spec: the all-or-nothing observable outcome of a
checkout request — on failure the repository is exactly the one before
the call (spec section 7). -/
def runCheckout (repo : Repo) (id : Nat) (now : ℤ) :
    Repo × Option ApiError :=
  match repoCheckout repo id now with
  | .ok r => (r, none)
  | .error e => (repo, some e)

/-- Modelled from the spec: delete removes the record by id and fails
with `NotFound` when the id is absent (spec sections 4.1 and 4.5; the
repository code is not in src/). -/
def repoDelete (repo : Repo) (id : Nat) : Except ApiError Repo :=
  if (List.find? (fun s => s.id == id) repo).isSome then
    .ok (List.filter (fun s => !(s.id == id)) repo)
  else .error .notFound

/-- Modelled from the spec: case-insensitive substring search over
`spot_number` or the occupancy `vehicle_license`; an unoccupied spot
passes only through its `spot_number` (spec section 4.4; the query layer
is not in src/). -/
def matchesSearch (s : ParkingSpot) (q : String) : Bool :=
  decide (q.toLower.toList <:+: s.spot_number.toLower.toList) ||
    (match s.vehicle_license with
     | some v => decide (q.toLower.toList <:+: v.toLower.toList)
     | none => false)

/-- Modelled from the spec: the listing operation.  Each of the optional
`status` and `spot_type` filters is exact-match equality when present and
passes all spots when absent; the free-text search is optional; the three
compose with logical AND, preserving repository order (spec section 4.4;
the query layer is not in src/). -/
def listSpots (repo : Repo) (status : Option SpotStatus)
    (ty : Option SpotType) (search : Option String) : Repo :=
  List.filter (fun s =>
    (match status with | none => true | some st => s.status == st) &&
    (match ty with | none => true | some t => s.spot_type == t) &&
    (match search with | none => true | some q => matchesSearch s q)) repo

/-- The dashboard stats payload of `GET /api/dashboard/stats`. -/
structure DashboardStats where
  total_spots : Nat
  available_spots : Nat
  occupied_spots : Nat
  reserved_spots : Nat
  total_revenue : ℚ
  deriving DecidableEq, Repr

/-- Modelled from the spec: the stats aggregator, a single read-only pass
over the repository — `total_spots` counts all records, the per-status
fields count records by current status, and `total_revenue` sums the
recorded `total_fee` fields (spec section 4.3; the aggregator is not in
src/). -/
def dashboardStats (repo : Repo) : DashboardStats :=
  { total_spots := repo.length
    available_spots := (List.filter (fun s => s.status == .available) repo).length
    occupied_spots := (List.filter (fun s => s.status == .occupied) repo).length
    reserved_spots := (List.filter (fun s => s.status == .reserved) repo).length
    total_revenue := (List.map (fun s => s.total_fee.getD 0) repo).sum }

/-!  Embeddings of App.js itself.  The dashboard works on raw strings, so
these definitions take and return `String` exactly as the source does. -/

/-- From App.js `getStatusColor` (lines 146-154): badge classes per
status string, with the gray classes as the `||` fallback for any other
value. -/
def getStatusColor (status : String) : String :=
  if status = "available" then "bg-green-100 text-green-800 border-green-200"
  else if status = "occupied" then "bg-red-100 text-red-800 border-red-200"
  else if status = "reserved" then "bg-blue-100 text-blue-800 border-blue-200"
  else if status = "maintenance" then "bg-orange-100 text-orange-800 border-orange-200"
  else "bg-gray-100 text-gray-800 border-gray-200"

/-- From App.js `getTypeIcon` (lines 156-164): icon per spot-type string,
with the regular-car icon as the `||` fallback for any other value.  The
string literals are byte-for-byte the ones in the source file. -/
def getTypeIcon (ty : String) : String :=
  if ty = "regular" then "ðŸš—"
  else if ty = "handicap" then "â™¿"
  else if ty = "vip" then "â­"
  else if ty = "electric" then "ðŸ”‹"
  else "ðŸš—"

/-- From App.js `fetchSpots` (lines 42-56): the query parameters built
for `GET /api/spots`.  `status` is appended only when the filter is a
non-empty string other than "all" (JS truthiness of `statusFilter` plus
the explicit `!== 'all'` check), likewise `spot_type`; `search` is
appended only when the query string is non-empty. -/
def fetchSpotsParams (statusFilter typeFilter searchQuery : String) :
    List (String × String) :=
  (if statusFilter ≠ "" ∧ statusFilter ≠ "all"
    then [("status", statusFilter)] else []) ++
  (if typeFilter ≠ "" ∧ typeFilter ≠ "all"
    then [("spot_type", typeFilter)] else []) ++
  (if searchQuery ≠ "" then [("search", searchQuery)] else [])

/-- From App.js line 391: the occupancy details block
(`vehicle_license`, driver fields, `entry_time`) is rendered exactly when
`spot.is_occupied` is truthy. -/
def rendersOccupancy (s : ParkingSpot) : Bool := s.is_occupied

/-- From App.js line 426: the Check In button is rendered exactly when
`spot.status === 'available'`. -/
def checkInOffered (s : ParkingSpot) : Bool := s.status.toString = "available"

/-- From App.js line 438: the Check Out button is rendered exactly when
`spot.status === 'occupied'`. -/
def checkOutOffered (s : ParkingSpot) : Bool := s.status.toString = "occupied"

/-- From App.js lines 29-34: the add-form state `newSpot`
(`spot_number`, `spot_type`, `hourly_rate`, `status`), all raw strings
except the rate, as in the source. -/
structure NewSpotForm where
  spot_number : String
  spot_type : String
  hourly_rate : ℚ
  status : String
  deriving DecidableEq, Repr

/-- From App.js lines 29-34: the initial `newSpot` state; also the value
the form is reset to after a successful add (line 77). -/
def initialNewSpot : NewSpotForm :=
  { spot_number := "", spot_type := "regular", hourly_rate := 5, status := "available" }

/-- The `setNewSpot` updates the add form offers (App.js lines 316-346):
the spot-number input, the type selector and the rate input.  No control
of the add form writes the `status` field. -/
inductive AddFormAction where
  | setNumber (v : String)
  | setType (v : String)
  | setRate (v : ℚ)
  deriving DecidableEq, Repr

/-- Applying one add-form interaction, as the `onChange` handlers spread
the previous state and replace the one edited field. -/
def applyAddAction (f : NewSpotForm) : AddFormAction → NewSpotForm
  | .setNumber v => { f with spot_number := v }
  | .setType v => { f with spot_type := v }
  | .setRate v => { f with hourly_rate := v }

/-- The payload `handleAddSpot` posts (App.js line 75) after a sequence
of form interactions: the fold of the interactions over the initial
state. -/
def addSpotPayload (actions : List AddFormAction) : NewSpotForm :=
  actions.foldl applyAddAction initialNewSpot

/-- From App.js lines 478-530: the edit-form state `selectedSpot`; the
fields `handleEditSpot` submits, as raw strings except the rate. -/
structure EditForm where
  spot_number : String
  spot_type : String
  hourly_rate : ℚ
  status : String
  deriving DecidableEq, Repr

/-- Opening the edit modal sets `selectedSpot` to the clicked spot
(App.js lines 449-452), so the form starts from the spot's current
field values. -/
def openEditForm (s : ParkingSpot) : EditForm :=
  { spot_number := s.spot_number
    spot_type := s.spot_type.toString
    hourly_rate := s.hourly_rate
    status := s.status.toString }

/-- The `setSelectedSpot` updates the edit form offers (App.js lines
482-525): the spot-number input, the type selector, the rate input and
the status selector. -/
inductive EditFormAction where
  | setNumber (v : String)
  | setType (v : String)
  | setRate (v : ℚ)
  | setStatus (v : String)
  deriving DecidableEq, Repr

/-- The status values offered by the edit form's status Select (App.js
lines 521-523): only Available, Reserved and Maintenance. -/
def editStatusOptions : List String := ["available", "reserved", "maintenance"]

/-- An interaction the edit dialog can actually produce: a status change
can only carry one of the three offered option values. -/
def validEditAction : EditFormAction → Bool
  | .setStatus v => editStatusOptions.contains v
  | _ => true

/-- Interaction sequences the edit dialog can actually produce. -/
def validEditActions (actions : List EditFormAction) : Bool :=
  actions.all validEditAction

/-- Applying one edit-form interaction, as the `onChange`/`onValueChange`
handlers spread the previous state and replace the one edited field. -/
def applyEditAction (f : EditForm) : EditFormAction → EditForm
  | .setNumber v => { f with spot_number := v }
  | .setType v => { f with spot_type := v }
  | .setRate v => { f with hourly_rate := v }
  | .setStatus v => { f with status := v }

/-- The payload `handleEditSpot` submits (App.js lines 89-94) after the
edit dialog was opened on `s` and a sequence of interactions was
performed: the fold of the interactions over the opened form. -/
def editSpotPayload (s : ParkingSpot) (actions : List EditFormAction) : EditForm :=
  actions.foldl applyEditAction (openEditForm s)

/-- The derived-boolean invariant of spec section 3:
`is_occupied` is true exactly when the status is `occupied`. -/
def spotInvariant (s : ParkingSpot) : Prop :=
  s.is_occupied = true ↔ s.status = SpotStatus.occupied

/-- A sample freshly created available spot, used to instantiate the
universally quantified theorems on concrete data. -/
def spotAvail : ParkingSpot :=
  createSpot 1 "A1" SpotType.regular 5 SpotStatus.available

/-- A sample occupied spot, used to instantiate the universally
quantified theorems on concrete data. -/
def spotOcc : ParkingSpot :=
  { id := 2
    spot_number := "B2"
    spot_type := SpotType.regular
    hourly_rate := 5
    status := SpotStatus.occupied
    is_occupied := true
    vehicle_license := some "KA01"
    driver_name := none
    driver_phone := none
    entry_time := some 100
    exit_time := none
    total_fee := none }

/-- The record produced by checking the vehicle "KA01" into `spotAvail`
at time 0. -/
def spotAvailCheckedIn : ParkingSpot :=
  { spotAvail with
    status := SpotStatus.occupied
    is_occupied := true
    vehicle_license := some "KA01"
    driver_name := none
    driver_phone := none
    entry_time := some 0 }

/-- Folding add-form interactions never writes the status field: no
`onChange` handler of the add dialog touches `newSpot.status`. -/
theorem addFold_status (f : NewSpotForm) (actions : List AddFormAction) :
    (actions.foldl applyAddAction f).status = f.status := by
  induction actions generalizing f with
  | nil => rfl
  | cons a as ih => cases a <;> exact ih _

/-- Claim C9: every spot created through the add operation has status
"available" — the add form exposes no status control, the `newSpot`
payload starts with status "available", and the post-submit reset
restores exactly that initial state, so every `POST /api/spots` payload
carries status "available". -/
theorem c9_add_posts_available (actions : List AddFormAction) :
    (addSpotPayload actions).status = "available" ∧
    initialNewSpot.status = "available" :=
  ⟨addFold_status initialNewSpot actions, rfl⟩

/-- Claim C10: the rendering helpers are total over arbitrary strings —
for any status outside the four enumerated values `getStatusColor`
returns the gray badge classes, and for any spot type outside the four
enumerated values `getTypeIcon` returns the same icon as for "regular"
(the regular-car icon). -/
theorem c10_render_defaults (status ty : String)
    (hs : status ∉ ["available", "occupied", "reserved", "maintenance"])
    (ht : ty ∉ ["regular", "handicap", "vip", "electric"]) :
    getStatusColor status = "bg-gray-100 text-gray-800 border-gray-200" ∧
    getTypeIcon ty = getTypeIcon "regular" := by
  simp only [List.mem_cons, List.not_mem_nil, or_false, not_or] at hs ht
  refine ⟨?_, ?_⟩
  · simp [getStatusColor, hs.1, hs.2.1, hs.2.2.1, hs.2.2.2]
  · simp [getTypeIcon, ht.1, ht.2.1, ht.2.2.1, ht.2.2.2]

/-- Claim C1: after every operation — create, edit, check-in, checkout,
delete — every live spot record satisfies `is_occupied = true` iff
`status = occupied`, and the dashboard renders the occupancy details
(vehicle_license, entry_time, driver fields) exactly when `is_occupied`
is true. -/
theorem c1_is_occupied_iff_status (id did : Nat) (num license : String)
    (ty : SpotType) (rate : ℚ) (st : SpotStatus) (s s2 s3 : ParkingSpot)
    (dn dp : Option String) (now : ℤ) (repo repo2 : Repo) :
    spotInvariant (createSpot id num ty rate st) ∧
    spotInvariant (editSpot s num ty rate st) ∧
    (checkin s license dn dp now = .ok s2 → spotInvariant s2) ∧
    (checkout s now = .ok s3 → spotInvariant s3) ∧
    ((∀ t ∈ repo, spotInvariant t) → repoDelete repo did = .ok repo2 →
      ∀ t ∈ repo2, spotInvariant t) ∧
    rendersOccupancy s = s.is_occupied := by
  refine ⟨?_, ?_, ?_, ?_, ?_, rfl⟩
  · simp [createSpot, spotInvariant]
  · by_cases h : st = SpotStatus.occupied <;> simp [editSpot, h, spotInvariant]
  · intro h
    by_cases h1 : s.status ≠ SpotStatus.available
    · simp [checkin, h1] at h
    · by_cases h2 : license = ""
      · simp [checkin, h1, h2] at h
      · simp only [checkin, if_neg h1, if_neg h2, Except.ok.injEq] at h
        subst h
        simp [spotInvariant]
  · intro h
    by_cases h1 : s.status ≠ SpotStatus.occupied
    · simp [checkout, h1] at h
    · simp only [checkout, if_neg h1, Except.ok.injEq] at h
      subst h
      simp [spotInvariant]
  · intro hall h t ht
    by_cases hfind : (List.find? (fun u => u.id == did) repo).isSome
    · simp only [repoDelete, if_pos hfind, Except.ok.injEq] at h
      subst h
      exact hall t (List.mem_filter.mp ht).1
    · simp [repoDelete, hfind] at h

/-- The C1 theorem instantiated on concrete data: the created sample
spot, the record after checking "KA01" into it, and a delete on a
one-record repository, each discharged by evaluation. -/
theorem c1_is_occupied_iff_status_witness :
    spotInvariant (createSpot 1 "A1" SpotType.regular 5 SpotStatus.available) ∧
    spotInvariant spotAvailCheckedIn ∧
    (∀ t ∈ ([] : Repo), spotInvariant t) := by
  have h := c1_is_occupied_iff_status 1 2 "A1" "KA01" SpotType.regular 5
    SpotStatus.available spotAvail spotAvailCheckedIn spotAvail none none 0
    [spotOcc] []
  refine ⟨h.1, h.2.2.1 rfl, ?_⟩
  refine h.2.2.2.2.1 ?_ rfl
  intro t ht
  have ht2 : t = spotOcc := by simpa using ht
  subst ht2
  simp [spotOcc, spotInvariant]

/-- Claim C2: the Check In button is rendered exactly for status
"available" and the Check Out button exactly for status "occupied"; on a
fresh snapshot a check-in issued from the button therefore targets an
available spot and a checkout an occupied spot, so neither can hit the
InvalidTransition branch. -/
theorem c2_buttons_match_transitions (s : ParkingSpot) (license : String)
    (dn dp : Option String) (now : ℤ) :
    (checkInOffered s = true ↔ s.status = SpotStatus.available) ∧
    (checkOutOffered s = true ↔ s.status = SpotStatus.occupied) ∧
    (checkInOffered s = true →
      checkin s license dn dp now ≠ .error .invalidTransition) ∧
    (checkOutOffered s = true →
      checkout s now ≠ .error .invalidTransition) := by
  have hin : checkInOffered s = true ↔ s.status = SpotStatus.available := by
    cases h : s.status <;> simp only [checkInOffered, SpotStatus.toString, h] <;> decide
  have hout : checkOutOffered s = true ↔ s.status = SpotStatus.occupied := by
    cases h : s.status <;> simp only [checkOutOffered, SpotStatus.toString, h] <;> decide
  refine ⟨hin, hout, ?_, ?_⟩
  · intro h
    have hs := hin.mp h
    by_cases hl : license = "" <;> simp [checkin, hs, hl]
  · intro h
    have hs := hout.mp h
    simp [checkout, hs]

/-- The C2 theorem instantiated at the sample available and occupied
spots, with the button conditions discharged by evaluation. -/
theorem c2_buttons_match_transitions_witness :
    checkin spotAvail "KA01" none none 0 ≠ .error .invalidTransition ∧
    checkout spotOcc 100 ≠ .error .invalidTransition :=
  ⟨(c2_buttons_match_transitions spotAvail "KA01" none none 0).2.2.1 (by decide),
   (c2_buttons_match_transitions spotOcc "KA01" none none 100).2.2.2 (by decide)⟩

/-- The C10 theorem instantiated at the concrete unknown strings
"bogus" and "weird". -/
theorem c10_render_defaults_witness :
    getStatusColor "bogus" = "bg-gray-100 text-gray-800 border-gray-200" ∧
    getTypeIcon "weird" = getTypeIcon "regular" :=
  c10_render_defaults "bogus" "weird" (by decide) (by decide)

/-- Folding valid edit-form interactions over any starting form: the
final status is one of the three selector options or the status the form
started with (no other control writes the status field). -/
theorem editFold_status (f : EditForm) (actions : List EditFormAction)
    (h : validEditActions actions = true) :
    (actions.foldl applyEditAction f).status ∈ editStatusOptions ∨
      (actions.foldl applyEditAction f).status = f.status := by
  induction actions generalizing f with
  | nil => right; rfl
  | cons a as ih =>
    have hcons : validEditAction a = true ∧ validEditActions as = true := by
      simpa [validEditActions, List.all_cons] using h
    simp only [List.foldl_cons]
    cases a with
    | setStatus v =>
      have hv : v ∈ editStatusOptions := by
        simpa [validEditAction] using hcons.1
      rcases ih { f with status := v } hcons.2 with h1 | h1
      · exact Or.inl h1
      · exact Or.inl (h1 ▸ hv)
    | setNumber v => exact ih { f with spot_number := v } hcons.2
    | setType v => exact ih { f with spot_type := v } hcons.2
    | setRate v => exact ih { f with hourly_rate := v } hcons.2

/-- Claim C3 as frozen is false on the code: opening the edit dialog on
an occupied spot and submitting without touching the status selector (the
empty, hence valid, interaction sequence) sends status "occupied", which
is not among the three selector options. -/
theorem c3_counterexample :
    validEditActions [] = true ∧
    (editSpotPayload spotOcc []).status = "occupied" ∧
    (editSpotPayload spotOcc []).status ∉ editStatusOptions := by
  refine ⟨rfl, rfl, ?_⟩
  decide

/-- Claim C3 (amended): the edit form's status selector offers only
"available", "reserved" and "maintenance", so the status an edit submits
is either one of these three or the spot's own status when the dialog was
opened; in particular an edit submits "occupied" only for a spot that was
already occupied, and check-in remains the only path into the occupied
status from any other status. -/
theorem c3_edit_status_amended (s : ParkingSpot)
    (actions : List EditFormAction) (h : validEditActions actions = true) :
    ((editSpotPayload s actions).status ∈ editStatusOptions ∨
      (editSpotPayload s actions).status = s.status.toString) ∧
    ((editSpotPayload s actions).status = "occupied" →
      s.status = SpotStatus.occupied) := by
  have hmain := editFold_status (openEditForm s) actions h
  constructor
  · simpa [editSpotPayload, openEditForm] using hmain
  · intro hocc
    simp only [editSpotPayload] at hocc
    rcases hmain with h1 | h1
    · rw [hocc] at h1
      exact absurd h1 (by decide)
    · rw [hocc] at h1
      have h2 : s.status.toString = "occupied" := by
        simpa [openEditForm] using h1.symm
      cases hst : s.status <;> rw [hst] at h2 <;>
        first
          | rfl
          | exact absurd h2 (by decide)

/-- The amended C3 theorem instantiated on the sample available spot and
a single selection of "reserved" in the status selector. -/
theorem c3_edit_status_amended_witness :
    ((editSpotPayload spotAvail [EditFormAction.setStatus "reserved"]).status ∈
        editStatusOptions ∨
      (editSpotPayload spotAvail [EditFormAction.setStatus "reserved"]).status =
        spotAvail.status.toString) ∧
    ((editSpotPayload spotAvail [EditFormAction.setStatus "reserved"]).status =
        "occupied" → spotAvail.status = SpotStatus.occupied) :=
  c3_edit_status_amended spotAvail [EditFormAction.setStatus "reserved"] (by decide)

/-- Claim C4: the checkout fee is `ceil_to_cent` of the clamped elapsed
time in hours times the hourly rate; when `exit_time` precedes (or
equals) `entry_time` the fee is 0, and a 90-minute stay (5400 seconds)
at hourly rate 5.00 costs exactly 7.50. -/
theorem c4_fee_formula (entry exit : ℤ) (rate : ℚ) :
    fee entry exit rate =
      ceil_to_cent (((max (exit - entry) 0 : ℤ) : ℚ) / 3600 * rate) ∧
    (exit ≤ entry → fee entry exit rate = 0) ∧
    fee 0 5400 5 = 15 / 2 := by
  refine ⟨rfl, ?_, ?_⟩
  · intro h
    have hmax : max (exit - entry) 0 = 0 := max_eq_right (by omega)
    simp [fee, elapsed_seconds, hmax, ceil_to_cent]
  · have h1 : elapsed_seconds 0 5400 = 5400 := rfl
    have h2 : ((5400 : ℤ) : ℚ) / 3600 * 5 * 100 = ((750 : ℤ) : ℚ) := by norm_num
    simp only [fee, h1, ceil_to_cent, h2, Int.ceil_intCast]
    norm_num

/-- The C4 theorem's clamp branch instantiated at a checkout 5 seconds
before the recorded entry: the fee is 0 rather than negative. -/
theorem c4_fee_formula_witness : fee 10 5 3 = 0 :=
  (c4_fee_formula 10 5 3).2.1 (by decide)

/-- Claim C5: on an available spot, check-in with a non-empty license
followed immediately by checkout (same timestamp, zero elapsed time)
succeeds and returns the spot to status available with all occupancy
fields cleared and a recorded total fee of exactly 0. -/
theorem c5_roundtrip_zero_fee (s : ParkingSpot) (license : String)
    (dn dp : Option String) (t : ℤ) (hs : s.status = SpotStatus.available)
    (hl : license ≠ "") :
    ∃ s2 s3, checkin s license dn dp t = .ok s2 ∧ checkout s2 t = .ok s3 ∧
      s3.status = SpotStatus.available ∧ s3.is_occupied = false ∧
      s3.vehicle_license = none ∧ s3.driver_name = none ∧
      s3.driver_phone = none ∧ s3.entry_time = none ∧
      s3.total_fee = some 0 := by
  have hfee : fee t t s.hourly_rate = 0 := by
    simp [fee, elapsed_seconds, ceil_to_cent]
  refine ⟨{ s with
      status := .occupied
      is_occupied := true
      vehicle_license := some license
      driver_name := dn
      driver_phone := dp
      entry_time := some t },
    { s with
      status := .available
      is_occupied := false
      vehicle_license := none
      driver_name := none
      driver_phone := none
      entry_time := none
      exit_time := some t
      total_fee := some 0 },
    ?_, ?_, rfl, rfl, rfl, rfl, rfl, rfl, rfl⟩
  · simp [checkin, hs, hl]
  · simp [checkout, hfee]

/-- The C5 theorem instantiated at the sample available spot, license
"KA01" and timestamp 0. -/
theorem c5_roundtrip_zero_fee_witness :
    ∃ s2 s3, checkin spotAvail "KA01" none none 0 = .ok s2 ∧
      checkout s2 0 = .ok s3 ∧
      s3.status = SpotStatus.available ∧ s3.is_occupied = false ∧
      s3.vehicle_license = none ∧ s3.driver_name = none ∧
      s3.driver_phone = none ∧ s3.entry_time = none ∧
      s3.total_fee = some 0 :=
  c5_roundtrip_zero_fee spotAvail "KA01" none none 0 rfl (by decide)

/-- Claim C6: check-in on a spot that is not available and checkout on a
spot that is not occupied each fail with InvalidTransition and leave the
repository — hence the spot's record — exactly as it was before the
call. -/
theorem c6_failed_transition_unchanged (repo : Repo) (s : ParkingSpot)
    (id : Nat) (license : String) (dn dp : Option String) (now : ℤ)
    (hfind : List.find? (fun t => t.id == id) repo = some s) :
    (s.status ≠ SpotStatus.available →
      runCheckin repo id license dn dp now =
        (repo, some ApiError.invalidTransition)) ∧
    (s.status ≠ SpotStatus.occupied →
      runCheckout repo id now = (repo, some ApiError.invalidTransition)) := by
  constructor
  · intro hst
    simp [runCheckin, repoCheckin, hfind, checkin, hst]
  · intro hst
    simp [runCheckout, repoCheckout, hfind, checkout, hst]

/-- The C6 theorem instantiated on singleton repositories holding the
sample occupied spot (check-in attempt) and the sample available spot
(checkout attempt). -/
theorem c6_failed_transition_unchanged_witness :
    runCheckin [spotOcc] 2 "KA01" none none 0 =
      ([spotOcc], some ApiError.invalidTransition) ∧
    runCheckout [spotAvail] 1 0 =
      ([spotAvail], some ApiError.invalidTransition) :=
  ⟨(c6_failed_transition_unchanged [spotOcc] spotOcc 2 "KA01" none none 0
      rfl).1 (by decide),
   (c6_failed_transition_unchanged [spotAvail] spotAvail 1 "x" none none 0
      rfl).2 (by decide)⟩

/-- Resolution of the three query parameters `fetchSpots` builds: each
key is present exactly when App.js appends it. -/
theorem lookup_fetch_params (sf tf sq : String) :
    List.lookup "status" (fetchSpotsParams sf tf sq) =
      (if sf = "" ∨ sf = "all" then none else some sf) ∧
    List.lookup "spot_type" (fetchSpotsParams sf tf sq) =
      (if tf = "" ∨ tf = "all" then none else some tf) ∧
    List.lookup "search" (fetchSpotsParams sf tf sq) =
      (if sq = "" then none else some sq) := by
  by_cases h1 : sf ≠ "" ∧ sf ≠ "all" <;>
    by_cases h2 : tf ≠ "" ∧ tf ≠ "all" <;>
    by_cases h3 : sq ≠ ""
  · simp only [fetchSpotsParams, if_pos h1, if_pos h2, if_pos h3,
      if_neg (not_or.mpr h1), if_neg (not_or.mpr h2),
      if_neg (fun hc => h3 hc)]
    exact ⟨rfl, rfl, rfl⟩
  · simp only [fetchSpotsParams, if_pos h1, if_pos h2, if_neg h3,
      if_neg (not_or.mpr h1), if_neg (not_or.mpr h2),
      if_pos (not_not.mp h3)]
    exact ⟨rfl, rfl, rfl⟩
  · simp only [fetchSpotsParams, if_pos h1, if_neg h2, if_pos h3,
      if_neg (not_or.mpr h1), if_pos (or_iff_not_and_not.mpr h2),
      if_neg (fun hc => h3 hc)]
    exact ⟨rfl, rfl, rfl⟩
  · simp only [fetchSpotsParams, if_pos h1, if_neg h2, if_neg h3,
      if_neg (not_or.mpr h1), if_pos (or_iff_not_and_not.mpr h2),
      if_pos (not_not.mp h3)]
    exact ⟨rfl, rfl, rfl⟩
  · simp only [fetchSpotsParams, if_neg h1, if_pos h2, if_pos h3,
      if_pos (or_iff_not_and_not.mpr h1), if_neg (not_or.mpr h2),
      if_neg (fun hc => h3 hc)]
    exact ⟨rfl, rfl, rfl⟩
  · simp only [fetchSpotsParams, if_neg h1, if_pos h2, if_neg h3,
      if_pos (or_iff_not_and_not.mpr h1), if_neg (not_or.mpr h2),
      if_pos (not_not.mp h3)]
    exact ⟨rfl, rfl, rfl⟩
  · simp only [fetchSpotsParams, if_neg h1, if_neg h2, if_pos h3,
      if_pos (or_iff_not_and_not.mpr h1), if_pos (or_iff_not_and_not.mpr h2),
      if_neg (fun hc => h3 hc)]
    exact ⟨rfl, rfl, rfl⟩
  · simp only [fetchSpotsParams, if_neg h1, if_neg h2, if_neg h3,
      if_pos (or_iff_not_and_not.mpr h1), if_pos (or_iff_not_and_not.mpr h2),
      if_pos (not_not.mp h3)]
    exact ⟨rfl, rfl, rfl⟩

/-- Claim C7: the listing composes the status filter, the spot-type
filter and the free-text search with logical AND, each of status and
spot_type being exact equality when present and passing everything when
absent; and the dashboard's query builder omits the status and spot_type
parameters when the filter is unset or "all" and omits search when the
query string is empty. -/
theorem c7_filter_composition (repo : Repo) (st : Option SpotStatus)
    (ty : Option SpotType) (q : Option String) (s : ParkingSpot)
    (sf tf sq : String) :
    (s ∈ listSpots repo st ty q ↔
      s ∈ repo ∧
        (match st with | none => True | some v => s.status = v) ∧
        (match ty with | none => True | some v => s.spot_type = v) ∧
        (match q with | none => True | some v => matchesSearch s v = true)) ∧
    (List.lookup "status" (fetchSpotsParams sf tf sq) =
      if sf = "" ∨ sf = "all" then none else some sf) ∧
    (List.lookup "spot_type" (fetchSpotsParams sf tf sq) =
      if tf = "" ∨ tf = "all" then none else some tf) ∧
    (List.lookup "search" (fetchSpotsParams sf tf sq) =
      if sq = "" then none else some sq) := by
  refine ⟨?_, (lookup_fetch_params sf tf sq).1,
    (lookup_fetch_params sf tf sq).2.1, (lookup_fetch_params sf tf sq).2.2⟩
  cases st <;> cases ty <;> cases q <;>
    simp [listSpots, List.mem_filter, and_assoc]

/-- Partitioning of the repository by the four statuses: the per-status
filter lengths sum to the total record count. -/
theorem status_count_partition (repo : Repo) :
    (List.filter (fun s => s.status == SpotStatus.available) repo).length +
      (List.filter (fun s => s.status == SpotStatus.occupied) repo).length +
      (List.filter (fun s => s.status == SpotStatus.reserved) repo).length +
      (List.filter (fun s => s.status == SpotStatus.maintenance) repo).length =
      repo.length := by
  induction repo with
  | nil => rfl
  | cons s l ih =>
    cases h : s.status <;>
      simp [List.filter_cons, h, List.length_cons] <;> omega

/-- Claim C8: for every repository state the stats satisfy
available + occupied + reserved ≤ total, with equality exactly when no
spot is in maintenance. -/
theorem c8_stats_invariant (repo : Repo) :
    (dashboardStats repo).available_spots +
        (dashboardStats repo).occupied_spots +
        (dashboardStats repo).reserved_spots ≤
      (dashboardStats repo).total_spots ∧
    ((dashboardStats repo).available_spots +
          (dashboardStats repo).occupied_spots +
          (dashboardStats repo).reserved_spots =
        (dashboardStats repo).total_spots ↔
      ∀ s ∈ repo, s.status ≠ SpotStatus.maintenance) := by
  have hp := status_count_partition repo
  have hm : (List.filter (fun s => s.status == SpotStatus.maintenance)
        repo).length = 0 ↔
      ∀ s ∈ repo, s.status ≠ SpotStatus.maintenance := by
    rw [List.length_eq_zero, List.filter_eq_nil_iff]
    simp
  simp only [dashboardStats]
  constructor
  · omega
  · rw [← hm]
    omega

end Parking
